import Mathlib

/-!
Verification development for the waypaper_rs video-wallpaper pipeline.

The definitions below are a shallow embedding of the canonical async+HW
pipeline of the repository: `src/wallpaper/video_hw.rs` (decoder and render
loop) and `src/wayland/wayland.rs` (Wayland presenter).  Machine integers are
modelled as `Nat`/`Int` with explicit wrapping (`% 2^32`, `% 2^64`) at the
places the Rust source performs `u32`/`usize` arithmetic; fallible operations
return `Except`; FFI calls whose outcome is decided outside the program
(device creation, demuxing, decoding) are parameters of the step functions.
Side effects that matter to the specification (log calls with their level,
shared-memory writes, buffer creation/destruction, surface commits, process
exit, seeks, sleeps) are reified into an `Effect` list.
-/

namespace Waypaper

/-! ### Machine integer helpers -/

/-- Modulus of `u32` arithmetic. -/
def u32Mod : Nat := 2 ^ 32

/-- Modulus of `usize` (64-bit) arithmetic. -/
def u64Mod : Nat := 2 ^ 64

/-- Wrap a natural number to `u32` range (Rust release-mode wrapping). -/
def w32 (n : Nat) : Nat := n % u32Mod

/-- Wrap a natural number to `usize` (64-bit) range. -/
def w64 (n : Nat) : Nat := n % u64Mod

/-- Rust release-mode `u32` subtraction `a - b`: wraps modulo `2^32`.
In debug builds the same expression panics on underflow. -/
def sub32 (a b : Nat) : Nat := (w32 a + u32Mod - w32 b) % u32Mod

/-- Reinterpret a `u32` value as `i32` (Rust `as i32` cast, two's complement). -/
def toI32 (n : Nat) : Int :=
  if w32 n < 2 ^ 31 then (w32 n : Int) else (w32 n : Int) - (u32Mod : Int)

/-! ### Reified side effects -/

/-- Log level of a `log::...!` call. -/
inductive LogLevel where
  | info
  | warn
  | error
deriving DecidableEq, Repr

/-- Side effects of the pipeline that the specification talks about. -/
inductive Effect where
  /-- A `log::info!` / `log::warn!` / `log::error!` call (message abbreviated). -/
  | log (lvl : LogLevel) (msg : String)
  /-- Bytes written into the mapped SHM file at a byte offset. -/
  | writeShm (offset len : Nat)
  /-- `wl_buffer.destroy` on the previously created buffer. -/
  | destroyBuffer
  /-- `wl_shm_pool.create_buffer(offset, w, h, stride, Argb8888)`. -/
  | createBuffer (offset w h stride : Nat)
  /-- `wl_surface.attach` of the buffer just created; the recorded number is
  that buffer's byte offset into the SHM pool. -/
  | attach (offset : Nat)
  /-- `wl_surface.damage(0, 0, w, h)`. -/
  | damage (w h : Nat)
  /-- `wl_surface.commit`. -/
  | commit
  /-- `zwlr_layer_surface_v1.ack_configure(serial)`. -/
  | ackConfigure (serial : Nat)
  /-- `std::process::exit(code)`. -/
  | exitProcess (code : Nat)
  /-- A roundtrip of the Wayland event queue (`dispatch_events`). -/
  | dispatchEvents
  /-- `ictx.seek(pos, ..)` on the demuxer. -/
  | seek (pos : Nat)
  /-- `tokio::time::sleep` of the given number of milliseconds. -/
  | sleepMs (ms : Nat)
deriving DecidableEq, Repr

/-- Whether an effect is a log entry at the given level. -/
def Effect.isLogAt (lvl : LogLevel) : Effect → Bool
  | .log l _ => l = lvl
  | _ => false

/-- Whether an effect is a surface commit. -/
def Effect.isCommit : Effect → Bool
  | .commit => true
  | _ => false

/-! ### Hardware acceleration (video_hw.rs 17-140)

`HardwareDecoder::new` calls `av_hwdevice_ctx_create`; whether that FFI call
succeeds is external to the program and is a `deviceAvailable : Bool`
parameter of the embedding.  For `HardwareAcceleration::None` no device is
created and `new` always succeeds. -/

/-- Variants of `HardwareAcceleration` (video_hw.rs 18-34). -/
inductive HardwareAcceleration where
  | VAAPI
  | CUDA
  | VDPAU
  | QSV
  | VideoToolbox
  | D3D11VA
  | None
deriving DecidableEq, Repr

/-- State of `HardwareDecoder` (video_hw.rs 78-82): presence of the opaque
`hw_device_ctx` handle and the configured backend. -/
structure HardwareDecoder where
  hw_device_ctx : Option Unit
  hw_accel_type : HardwareAcceleration
deriving DecidableEq, Repr

/-- `HardwareDecoder::new` (video_hw.rs 89-140).  For backend `None` it
returns a decoder without a device context; for every other backend it calls
`av_hwdevice_ctx_create`, whose success is the `deviceAvailable` parameter,
and returns `Err` when that call fails.  There is no fallback inside `new`. -/
def HardwareDecoder.new (t : HardwareAcceleration) (deviceAvailable : Bool) :
    Except String HardwareDecoder :=
  match t with
  | .None => .ok ⟨none, t⟩
  | _ =>
      if deviceAvailable then .ok ⟨some (), t⟩
      else .error "Failed to create hardware device context"

/-- `HardwareDecoder::configure_decoder` (video_hw.rs 143-170): a no-op for
backend `None`; otherwise it calls `av_buffer_ref` on the device context and
fails if the returned pointer is null (`bufferRefOk` parameter). -/
def HardwareDecoder.configure_decoder (hw : HardwareDecoder)
    (bufferRefOk : Bool) : Except String Unit :=
  if hw.hw_accel_type = .None then .ok ()
  else if bufferRefOk then .ok ()
  else .error "Failed to set hw_device_ctx in decoder context"

/-- Open phase of `decode_video_async` (video_hw.rs 539-577).  Each fallible
step of the source is propagated with the `?` operator; its success is a
boolean parameter here.  In particular the `HardwareDecoder::new(...)?` at
line 575 propagates a hardware-initialisation failure out of the function:
the decode task then terminates with `Err`, it does not fall back to
software decoding.  On success the returned value is the backend the decoder
actually runs with, which is always the one that was requested. -/
def decodeVideoOpen (ffmpegInitOk openOk streamFound decoderCtxOk decoderOk : Bool)
    (hwType : HardwareAcceleration) (deviceAvailable bufferRefOk : Bool) :
    Except String HardwareAcceleration :=
  if !ffmpegInitOk then .error "Failed to initialize ffmpeg" else
  if !openOk then .error "Failed to open video file" else
  if !streamFound then .error "No video stream found" else
  if !decoderCtxOk then .error "Failed to create decoder context" else
  if !decoderOk then .error "Failed to create video decoder" else
  match HardwareDecoder.new hwType deviceAvailable with
  | .error e => .error e
  | .ok hw =>
      match hw.configure_decoder bufferRefOk with
      | .error e => .error e
      | .ok _ => .ok hw.hw_accel_type

/-- Whether an `Except` is `ok`. -/
def exceptIsOk {ε α : Type} : Except ε α → Bool
  | .ok _ => true
  | .error _ => false

/-! ### PTS-to-duration computation (video_hw.rs 736-743)

The source computes
`time_ms = (pts_diff * num as f64 / den as f64 * 1000.0) as u32` and updates
the persistent `frame_time_ms` only when `0 < time_ms < 1000`.  The `f64`
product is modelled as the exact rational value `pts_diff * num * 1000 / den`;
the Rust `as u32` cast on an `f64` truncates toward zero and saturates at `0`
and `u32::MAX`. -/

/-- The value of `(pts_diff * num / den * 1000.0) as u32`, with the `f64`
arithmetic modelled exactly: negative values saturate to `0`, the positive
part is the floor of the rational value, saturated at `2^32 - 1`. -/
def ptsDeltaMs (d num den : Int) : Nat :=
  let a : Int := d * num * 1000
  if a < 0 ∨ den ≤ 0 then 0
  else min (a.fdiv den).toNat (u32Mod - 1)

/-- One update of the persistent `frame_time_ms` variable for a frame with
timestamp `pts` (video_hw.rs 736-743): if a prior PTS exists and the delta in
milliseconds lies strictly between 0 and 1000, the duration becomes that
delta; otherwise (no prior PTS, or out-of-range delta) `frame_time_ms`
keeps its current value. -/
def durationStep (last_pts : Option Int) (frame_time_ms : Nat) (pts : Int)
    (num den : Int) : Nat :=
  match last_pts with
  | none => frame_time_ms
  | some last =>
      if 0 < ptsDeltaMs (pts - last) num den ∧ ptsDeltaMs (pts - last) num den < 1000
      then ptsDeltaMs (pts - last) num den
      else frame_time_ms

/-- The sequence of `frame_time` values attached to successive frames with
the given PTS values, starting from tracking state `(last, ft)`; at pipeline
start and after each loop reset that state is `(none, 33)`. -/
def durationsFrom (num den : Int) : Option Int → Nat → List Int → List Nat
  | _, _, [] => []
  | last, ft, pts :: rest =>
      let ft' := durationStep last ft pts num den
      ft' :: durationsFrom num den (some pts) ft' rest

/-- What claim C5 says the duration is (refinement candidate, written from
the spec's words, to be compared with `durationStep`): 33 when no prior PTS
exists, 33 whenever the PTS delta in milliseconds falls outside `[1, 999]`,
and the delta itself otherwise. -/
def specDurationC5 (last_pts : Option Int) (pts : Int) (num den : Int) : Nat :=
  match last_pts with
  | none => 33
  | some last =>
      let t := ptsDeltaMs (pts - last) num den
      if 1 ≤ t ∧ t ≤ 999 then t else 33

/-! ### Frame extraction (video_hw.rs 778-804) -/

/-- Row-by-row copy used by `extract_frame_data`: row `y` is the `rowSize`
bytes of the source starting at `y * stride` (reads beyond the source are
modelled as 0; in the source they are out-of-bounds pointer reads). -/
def extractRows (data : List Nat) (stride rowSize : Nat) : Nat → List Nat
  | 0 => []
  | h + 1 =>
      extractRows data stride rowSize h ++
        (List.range rowSize).map fun i => data.getD (h * stride + i) 0

/-- `extract_frame_data` (video_hw.rs 778-804): allocates a tight
`width*4*height` buffer and copies `width*4` bytes per row from the source
frame whose row pitch is `stride`. -/
def extract_frame_data (data : List Nat) (stride width height : Nat) : List Nat :=
  extractRows data stride (width * 4) height

/-- `FrameData` (video_hw.rs 458-463): the presentable frame sent over the
channel.  It carries no stride field; the buffer is tightly packed. -/
structure FrameData where
  frame : List Nat
  width : Nat
  height : Nat
  frame_time : Nat
deriving DecidableEq, Repr

/-- The `FrameData` value built and sent at video_hw.rs 745-752: the frame
bytes come from `extract_frame_data` on the final BGRA frame, the dimensions
are the fixed output dimensions, the duration is the current
`frame_time_ms`. -/
def sentFrame (data : List Nat) (stride : Nat) (output_width output_height : Nat)
    (frame_time_ms : Nat) : FrameData :=
  { frame := extract_frame_data data stride output_width output_height
    width := output_width
    height := output_height
    frame_time := frame_time_ms }

/-! ### The decode loop (video_hw.rs 599-770)

The loop-local mutable state is `frame_count`, `packet_count`, `last_pts`,
`frame_time_ms`, the demuxer position, and the `first_frame_decoded` flag
guarding lazy scaler creation.  External observations of one iteration (the
demuxer read, the stream index of the packet, the decoder's send/receive
results, frame contents, channel liveness) are parameters.  Log calls inside
the loop are elided; the behaviourally relevant actions (seek, sleep, send,
loop exit) are encoded in the outcome. -/

/-- Mutable state of the decode loop. -/
structure DecodeState where
  frame_count : Nat
  packet_count : Nat
  last_pts : Option Int
  frame_time_ms : Nat
  /-- Demuxer position: 0 right after the seek performed at end of stream. -/
  position : Nat
  first_frame_decoded : Bool
deriving DecidableEq, Repr

/-- Loop-constant configuration captured before the loop starts: the stream
time base and the fixed output dimensions (1920x1080 at video_hw.rs 536-537). -/
structure DecodeCfg where
  tb_num : Int
  tb_den : Int
  output_width : Nat
  output_height : Nat
deriving DecidableEq, Repr

/-- The state after the end-of-stream branch (video_hw.rs 614-621): seek the
demuxer to position 0, set `frame_count = 0`, clear `last_pts`, and return
`frame_time_ms` to the 33 ms default.  `packet_count`, the lazily created
scaler and `first_frame_decoded` are untouched.  No other variable exists in
the loop: in particular there is no epoch counter. -/
def eofResetState (s : DecodeState) : DecodeState :=
  { s with frame_count := 0, last_pts := none, frame_time_ms := 33, position := 0 }

/-- A decoded frame as observed from `receive_frame`, after the
hardware-transfer / scaling stage: its PTS, the bytes and row stride of the
final BGRA frame, and whether the conversion chain (transfer_frame,
`Context::get`, `scaler.run`) succeeded — each of those failures breaks the
loop with `Err` via the `?` operator (video_hw.rs 663, 685, 712, 723). -/
structure DecodedFrameIn where
  pts : Option Int
  data : List Nat
  stride : Nat
  convertOk : Bool
deriving DecidableEq, Repr

/-- Result of `decoder.receive_frame` for the current packet
(video_hw.rs 636-768). -/
inductive RecvResult where
  /-- A frame was produced. -/
  | frame (f : DecodedFrameIn)
  /-- `Eof` or `EAGAIN` (errno 11): no frame available, keep demuxing. -/
  | again
  /-- Any other receive error: the loop breaks with `Err`. -/
  | errRecv
deriving DecidableEq, Repr

/-- What `ictx.packets().next()` produced this iteration. -/
inductive PacketRead where
  /-- Demuxer exhausted (`None`). -/
  | eof
  /-- A packet from some stream; `isVideo` is whether its stream index equals
  the selected video stream, `sendOk` whether `send_packet` succeeds. -/
  | pkt (isVideo : Bool) (sendOk : Bool) (recv : RecvResult)
deriving DecidableEq, Repr

/-- Outcome of one iteration of the decode loop. -/
inductive DecodeOutcome where
  /-- `break Ok(())` taken from the stop-flag check. -/
  | stop
  /-- Pause branch: sleep 100 ms and re-enter the loop, state unchanged. -/
  | pauseSleep (s : DecodeState)
  /-- `continue` (or fall through) to the next iteration. -/
  | cont (s : DecodeState)
  /-- A frame was decoded and sent on the channel, then the loop continues. -/
  | sendAndCont (s : DecodeState) (fd : FrameData)
  /-- `break Err(..)`: the decode task terminates with an error. -/
  | fail (s : DecodeState)
deriving DecidableEq, Repr

/-- The part of a decode-loop iteration after the flag checks
(video_hw.rs 612-769): demuxer read, packet handling, decode, conversion,
duration update and channel send. -/
def decodeIterBody (cfg : DecodeCfg) (read : PacketRead)
    (channelOpen : Bool) (s : DecodeState) : DecodeOutcome :=
  match read with
    | .eof => .cont (eofResetState s)
    | .pkt isVideo sendOk recv =>
        let s := { s with packet_count := s.packet_count + 1 }
        if isVideo then
          if !sendOk then .fail s
          else
            match recv with
            | .again => .cont s
            | .errRecv => .fail s
            | .frame f =>
                match f.pts with
                | none => .cont s
                | some pts =>
                    let s := { s with frame_count := s.frame_count + 1 }
                    if !f.convertOk then .fail s
                    else
                      let s := { s with first_frame_decoded := true }
                      let ft := durationStep s.last_pts s.frame_time_ms pts
                        cfg.tb_num cfg.tb_den
                      let s := { s with last_pts := some pts, frame_time_ms := ft }
                      let fd := sentFrame f.data f.stride cfg.output_width
                        cfg.output_height ft
                      if channelOpen then .sendAndCont s fd else .fail s
        else
          .cont s

/-- One iteration of the decode loop (video_hw.rs 599-770).  Note the guard
of the stop check: `frame_count % 100 == 0 && *is_stopped...` — the stop flag
is read only on iterations whose `frame_count` is a multiple of 100; the
pause flag only on multiples of 10. -/
def decodeIter (cfg : DecodeCfg) (stopped paused : Bool) (read : PacketRead)
    (channelOpen : Bool) (s : DecodeState) : DecodeOutcome :=
  if s.frame_count % 100 = 0 ∧ stopped then
    .stop
  else if s.frame_count % 10 = 0 ∧ paused then
    .pauseSleep s
  else
    decodeIterBody cfg read channelOpen s

/-! ### CPU scaling (wayland.rs 15-441)

`scale_crop` and `scale_fit` perform their coordinate arithmetic in `f64`;
the embedding models those computations as exact rationals with the Rust
`f64 as u32` cast (truncation toward zero, saturating at 0 and `u32::MAX`).
`scale_no` uses only integer arithmetic and is modelled bit-exactly:
`u32` subtraction wraps in release mode (and panics in debug mode), `u32`
additions wrap, and the `usize` index products wrap modulo `2^64`. -/

/-- Scaling mode for wallpaper/video (wayland.rs 17-26). -/
inductive ScaleMode where
  | Crop
  | Fit
  | No
deriving DecidableEq, Repr

/-- The Rust `f64 as u32` cast of an exactly represented rational value:
truncation toward zero, saturating at `0` below and `u32::MAX` above. -/
def f64asU32 (q : ℚ) : Nat :=
  if q ≤ 0 then 0 else min (Int.toNat (Int.floor q)) (u32Mod - 1)

/-- Read the four bytes of the BGRA pixel at byte index `idx` of `src`
and store them at byte index `dstIdx` of `buf`.  `List.set` leaves the list
unchanged on an out-of-range index; in the source an out-of-range `dstIdx`
is an out-of-bounds raw-pointer write (undefined behaviour), which claim C10
addresses through `scaleNoDstIdx` below. -/
def writePixel (buf src : List Nat) (dstIdx srcIdx : Nat) : List Nat :=
  ((((buf.set dstIdx (src.getD srcIdx 0)).set (dstIdx + 1) (src.getD (srcIdx + 1) 0)).set
      (dstIdx + 2) (src.getD (srcIdx + 2) 0)).set
      (dstIdx + 3) (src.getD (srcIdx + 3) 0))

/-- `offset_x` of `scale_no` (wayland.rs 406): `((output_width -
video_width) / 2).max(0)` in `u32` arithmetic — the subtraction wraps when
`video_width > output_width` (release mode), and `.max(0)` is the identity
on an unsigned value. -/
def scaleNoOffsetX (output_width video_width : Nat) : Nat :=
  max (sub32 output_width video_width / 2) 0

/-- `offset_y` of `scale_no` (wayland.rs 407), same shape as `offset_x`. -/
def scaleNoOffsetY (output_height video_height : Nat) : Nat :=
  max (sub32 output_height video_height / 2) 0

/-- Destination byte index written by `scale_no` for source pixel `(x, y)`
(wayland.rs 425-429): `dst_row_start = ((offset_y + y) as usize) *
output_stride` and `dst_idx = dst_row_start + ((offset_x + x) as usize * 4)`,
with the `u32` additions wrapping modulo `2^32` and the `usize` products and
sum modulo `2^64`. -/
def scaleNoDstIdx (output_width output_height video_width video_height x y : Nat) :
    Nat :=
  let output_stride := w32 (output_width * 4)
  let dst_row_start :=
    w64 (w32 (scaleNoOffsetY output_height video_height + y) * output_stride)
  w64 (dst_row_start + w64 (w32 (scaleNoOffsetX output_width video_width + x) * 4))

/-- Source byte index read by `scale_no` for pixel `(x, y)`
(wayland.rs 424, 428). -/
def scaleNoSrcIdx (video_width x y : Nat) : Nat :=
  w64 (w64 (y * w32 (video_width * 4)) + w64 (x * 4))

/-- `WaylandApp::scale_no` (wayland.rs 396-441): allocate a black
`output_width * output_height * 4` buffer and copy the top-left
`min(video, output)` window of the source, centred by `offset_x`/`offset_y`. -/
def scale_no (frame_data : List Nat) (output_width output_height
    video_width video_height : Nat) : List Nat :=
  let copy_width := min video_width output_width
  let copy_height := min video_height output_height
  let init := List.replicate (w32 (w32 (output_width * output_height) * 4)) 0
  (List.range copy_height).foldl
    (fun buf y =>
      (List.range copy_width).foldl
        (fun buf x =>
          writePixel buf frame_data
            (scaleNoDstIdx output_width output_height video_width video_height x y)
            (scaleNoSrcIdx video_width x y))
        buf)
    init

/-- `WaylandApp::scale_crop` (wayland.rs 276-334): nearest-neighbour cover
scaling.  The `f64` computations are modelled as exact rationals (a rational
division by zero yields 0 where Rust `f64` would yield infinity; no claim
exercises that case). -/
def scale_crop (frame_data : List Nat) (output_width output_height
    video_width video_height : Nat) : List Nat :=
  let scale_x : ℚ := (output_width : ℚ) / (video_width : ℚ)
  let scale_y : ℚ := (output_height : ℚ) / (video_height : ℚ)
  let scale := max scale_x scale_y
  let scaled_width := f64asU32 ((video_width : ℚ) * scale)
  let scaled_height := f64asU32 ((video_height : ℚ) * scale)
  let src_offset_x : ℚ := ((sub32 scaled_width output_width : ℚ)) / 2
  let src_offset_y : ℚ := ((sub32 scaled_height output_height : ℚ)) / 2
  let video_stride := w32 (video_width * 4)
  let output_stride := w32 (output_width * 4)
  let inv_scale : ℚ := 1 / scale
  let init := List.replicate (w32 (w32 (output_width * output_height) * 4)) 0
  (List.range output_height).foldl
    (fun (buf : List Nat) (y : Nat) =>
      let src_y := f64asU32 (((y : ℚ) + src_offset_y) * inv_scale)
      let src_row_start := w64 (src_y * video_stride)
      let dst_row_start := w64 (y * output_stride)
      (List.range output_width).foldl
        (fun (buf : List Nat) (x : Nat) =>
          let src_x := f64asU32 (((x : ℚ) + src_offset_x) * inv_scale)
          writePixel buf frame_data (w64 (dst_row_start + w64 (x * 4)))
            (w64 (src_row_start + w64 (src_x * 4))))
        buf)
    init

/-- `WaylandApp::scale_fit` (wayland.rs 338-393): nearest-neighbour contain
scaling with black letterboxing, modelled like `scale_crop`.  The centring
offsets use wrapping `u32` subtraction exactly as the source does. -/
def scale_fit (frame_data : List Nat) (output_width output_height
    video_width video_height : Nat) : List Nat :=
  let scale_x : ℚ := (output_width : ℚ) / (video_width : ℚ)
  let scale_y : ℚ := (output_height : ℚ) / (video_height : ℚ)
  let scale := min scale_x scale_y
  let scaled_width := f64asU32 ((video_width : ℚ) * scale)
  let scaled_height := f64asU32 ((video_height : ℚ) * scale)
  let offset_x := sub32 output_width scaled_width / 2
  let offset_y := sub32 output_height scaled_height / 2
  let video_stride := w32 (video_width * 4)
  let output_stride := w32 (output_width * 4)
  let inv_scale : ℚ := 1 / scale
  let init := List.replicate (w32 (w32 (output_width * output_height) * 4)) 0
  (List.range scaled_height).foldl
    (fun (buf : List Nat) (y : Nat) =>
      let src_y := f64asU32 ((y : ℚ) * inv_scale)
      let src_row_start := w64 (src_y * video_stride)
      let dst_row_start := w64 (w32 (offset_y + y) * output_stride)
      (List.range scaled_width).foldl
        (fun (buf : List Nat) (x : Nat) =>
          let src_x := f64asU32 ((x : ℚ) * inv_scale)
          writePixel buf frame_data
            (w64 (dst_row_start + w64 (w32 (offset_x + x) * 4)))
            (w64 (src_row_start + w64 (src_x * 4))))
        buf)
    init

/-! ### The Wayland presenter (wayland.rs 34-258, 565-591) -/

/-- State of `WaylandApp` (wayland.rs 34-54).  Wayland proxy objects are
modelled by their presence (`Option Unit`); `buffer` is the single
`Option<wl_buffer>` slot the app owns — there is no buffer array.
`static_counter` models the `static COUNTER` atomic of `render_frame`
(wayland.rs 232). -/
structure WaylandApp where
  surface : Option Unit
  shm_pool : Option Unit
  shm_file : Option Unit
  queue : Option Unit
  buffer : Option Unit
  configured : Bool
  configured_width : Nat
  configured_height : Nat
  frame_count : Nat
  pool_size : Int
  output_width : Nat
  output_height : Nat
  scale_mode : ScaleMode
  static_counter : Nat
deriving DecidableEq, Repr

/-- `WaylandApp::scale_frame_to_output` (wayland.rs 261-272): dispatch on the
configured scale mode; every mode returns a buffer of the output dimensions. -/
def scale_frame_to_output (app : WaylandApp) (frame_data : List Nat)
    (video_width video_height : Nat) : List Nat × Nat × Nat :=
  match app.scale_mode with
  | .Crop => (scale_crop frame_data app.output_width app.output_height
      video_width video_height, app.output_width, app.output_height)
  | .Fit => (scale_fit frame_data app.output_width app.output_height
      video_width video_height, app.output_width, app.output_height)
  | .No => (scale_no frame_data app.output_width app.output_height
      video_width video_height, app.output_width, app.output_height)

/-- Result of `WaylandApp::render_frame`: updated state, reified effects in
program order, and the `Result<()>` value. -/
structure RenderOut where
  app : WaylandApp
  effects : List Effect
  result : Except String Unit

/-- The scaling decision of `render_frame` (wayland.rs 170-177): when the
frame dimensions differ from the output size the frame is CPU-scaled to the
output, otherwise it is used as is (`frame_data.to_vec()`). -/
def renderScaled (app : WaylandApp) (frame_data : List Nat)
    (width height : Nat) : List Nat × Nat × Nat :=
  if width ≠ app.output_width ∨ height ≠ app.output_height then
    scale_frame_to_output app frame_data width height
  else (frame_data, width, height)

/-- `WaylandApp::render_frame` (wayland.rs 158-242).  Not-configured returns
`Ok` silently; missing proxies return `Err`; a frame whose dimensions differ
from the output is CPU-scaled; the computed `size = stride * height` (in
`u32` arithmetic, then cast `as i32`) is compared against the pool size and
an oversized frame returns `Err` before anything is written or committed.
Otherwise the frame bytes are written at offset 0 of the SHM file, the
previous buffer (if any) is destroyed, a new buffer is created at pool
offset 0, and the surface is attached, damaged and committed. -/
def render_frame (app : WaylandApp) (frame_data : List Nat)
    (width height : Nat) : RenderOut :=
  if !app.configured then ⟨app, [], .ok ()⟩ else
  match app.surface, app.shm_pool with
  | none, _ => ⟨app, [], .error "Surface not available"⟩
  | _, none => ⟨app, [], .error "SHM pool not available"⟩
  | some _, some _ =>
    let scaling := width ≠ app.output_width ∨ height ≠ app.output_height
    let scaleLog : List Effect :=
      if scaling ∧ app.frame_count = 0 then
        [.log .info "Scaling video to output"] else []
    let rwh := renderScaled app frame_data width height
    let render_data := rwh.1
    let render_width := rwh.2.1
    let render_height := rwh.2.2
    match app.shm_file, app.queue with
    | none, _ => ⟨app, scaleLog, .error "SHM file not available"⟩
    | _, none => ⟨app, scaleLog, .error "Queue not available"⟩
    | some _, some _ =>
      let stride := w32 (render_width * 4)
      let size := w32 (stride * render_height)
      if app.pool_size < toI32 size then
        ⟨app, scaleLog, .error "Frame size exceeds pool size"⟩
      else
        let writeE : Effect := .writeShm 0 render_data.length
        let destroyE : List Effect :=
          match app.buffer with
          | some _ => [.destroyBuffer]
          | none => []
        let createE : Effect := .createBuffer 0 render_width render_height stride
        let fc := app.frame_count + 1
        let debugLog : List Effect :=
          if fc % 30 = 0 then [.log .info "First 2 pixels BGRA"] else []
        let sc := app.static_counter + 1
        let timingLog : List Effect :=
          if sc % 30 = 0 then [.log .info "Render timing"] else []
        ⟨{ app with buffer := some (), frame_count := fc, static_counter := sc },
          scaleLog ++ [writeE] ++ destroyE ++ [createE] ++ debugLog ++
            [.attach 0, .damage render_width render_height, .commit] ++ timingLog,
          .ok ()⟩

/-- Events of `zwlr_layer_surface_v1` handled by the presenter
(wayland.rs 574-589). -/
inductive LayerSurfaceEvent where
  | Configure (serial width height : Nat)
  | Closed
  | Other
deriving DecidableEq, Repr

/-- The `Dispatch<ZwlrLayerSurfaceV1> for WaylandApp` event handler
(wayland.rs 565-591): `Configure` acks the serial and records the size;
`Closed` calls `std::process::exit(0)` — the whole process terminates,
nothing transitions to a stopped state. -/
def layerSurfaceDispatch (app : WaylandApp) (ev : LayerSurfaceEvent) :
    WaylandApp × List Effect :=
  match ev with
  | .Configure serial width height =>
      ({ app with
          configured := true
          configured_width := width
          configured_height := height }, [.ackConfigure serial])
  | .Closed => (app, [.exitProcess 0])
  | .Other => (app, [])

/-! ### The render loop (video_hw.rs 806-924)

One iteration of the `while !stopped` body after `rx.recv()` returned.  All
`Instant::now()` readings within one iteration are modelled by the single
parameter `now` (milliseconds); wall-clock advance inside an iteration is
abstracted away. -/

/-- Loop-local state of `render_frames_async`. -/
structure RenderState where
  app : WaylandApp
  frame_count : Nat
  first_frame_time : Option Nat
  next_frame_time : Nat
  last_frame_time : Option Nat
deriving DecidableEq, Repr

/-- Body of the render loop for a received frame (video_hw.rs 836-911), in
program order: increment the presenter-side frame count; the loop-seam
detection (`frame_time == 33 && frame_count > 100`) resets the count and the
pacing clock; the receive-gap check may warn; the first frame initialises the
pacing clock; `render_frame` runs (an `Err` is logged at error level,
otherwise events are dispatched); the stats log fires every 60 frames; the
pacing clock advances by the frame's duration and the loop sleeps if wall
time is behind. -/
def renderLoopBody (s : RenderState) (fd : FrameData) (now : Nat) :
    RenderState × List Effect :=
  let fc1 := s.frame_count + 1
  let fc2 := if fd.frame_time = 33 ∧ fc1 > 100 then 0 else fc1
  let fft2 := if fd.frame_time = 33 ∧ fc1 > 100 then some now else s.first_frame_time
  let nft2 := if fd.frame_time = 33 ∧ fc1 > 100 then now else s.next_frame_time
  let e1 : List Effect :=
    if fd.frame_time = 33 ∧ fc1 > 100 then
      [.log .info "Loop detected, resetting frame count and timing"]
    else []
  let e2 : List Effect :=
    match s.last_frame_time with
    | some last => if now - last > 50 then [.log .warn "Frame receive gap"] else []
    | none => []
  let fft3 := if fft2.isNone then some now else fft2
  let nft3 := if fft2.isNone then now else nft2
  let e3 : List Effect :=
    if fft2.isNone then
      [.log .info "First frame received, starting playback"]
    else []
  let r := render_frame s.app fd.frame fd.width fd.height
  let e4 : List Effect :=
    match r.result with
    | .error _ => [.log .error "Failed to render frame"]
    | .ok _ => [.dispatchEvents]
  let e5 : List Effect := if fc2 % 60 = 0 then [.log .info "Render stats"] else []
  let nft4 := nft3 + fd.frame_time
  let e6 : List Effect := if now < nft4 then [.sleepMs (nft4 - now)] else []
  ({ app := r.app, frame_count := fc2, first_frame_time := fft3,
      next_frame_time := nft4, last_frame_time := some now },
    e1 ++ e2 ++ e3 ++ r.effects ++ e4 ++ e5 ++ e6)

/-- One pass of the render loop around `rx.recv()`: a closed channel
(`None`) breaks the loop; a received frame runs `renderLoopBody` and the
loop continues (`some` state). -/
def renderLoopIter (s : RenderState) (msg : Option FrameData) (now : Nat) :
    Option RenderState × List Effect :=
  match msg with
  | none => (none, [.log .info "Decode thread disconnected"])
  | some fd =>
      (some (renderLoopBody s fd now).1, (renderLoopBody s fd now).2)

/-! ### Concrete fixtures used by counterexamples and witnesses -/

/-- A configured presenter right after setup: all proxies present, no buffer
yet, the default 4K pool, a 1920x1080 output. -/
def appDefault : WaylandApp :=
  { surface := some (), shm_pool := some (), shm_file := some (), queue := some ()
    buffer := none, configured := true, configured_width := 1920
    configured_height := 1080, frame_count := 0, pool_size := 3840 * 2160 * 4
    output_width := 1920, output_height := 1080, scale_mode := .Crop
    static_counter := 0 }

/-! ### Claim theorems -/

/-- Helper: length of the row-by-row copy. -/
theorem extractRows_length (data : List Nat) (stride rs : Nat) :
    ∀ h, (extractRows data stride rs h).length = h * rs
  | 0 => by simp [extractRows]
  | h + 1 => by
      simp [extractRows, extractRows_length data stride rs h, Nat.succ_mul]

/-- C6 (confirmed): every `FrameData` built by the converter
(`extract_frame_data` at video_hw.rs 778-804, packaged at 745-752) has a
byte buffer of length exactly `width * 4 * height` — i.e. length
`stride * height` with the tight stride `width * 4` — for every input byte
buffer, source stride and dimension choice.  `FrameData` carries no stride
field; the buffer is tightly packed by construction. -/
theorem c6_presentable_frame_tight (data : List Nat) (stride ow oh ft : Nat) :
    (sentFrame data stride ow oh ft).frame.length =
      ((sentFrame data stride ow oh ft).width * 4) *
        (sentFrame data stride ow oh ft).height := by
  simp [sentFrame, extract_frame_data, extractRows_length, Nat.mul_comm]

/-- Helper: one duration update stays in `[1, 999]` when the previous value
is in that range. -/
theorem durationStep_range (last : Option Int) (ft : Nat) (pts num den : Int)
    (h1 : 1 ≤ ft) (h2 : ft ≤ 999) :
    1 ≤ durationStep last ft pts num den ∧ durationStep last ft pts num den ≤ 999 := by
  cases last with
  | none => exact ⟨h1, h2⟩
  | some l =>
      simp only [durationStep]
      split
      · next h => exact ⟨h.1, by omega⟩
      · exact ⟨h1, h2⟩

/-- Helper: every duration in a trace starting from an in-range value is in
`[1, 999]`. -/
theorem durationsFrom_range (num den : Int) :
    ∀ (ptss : List Int) (last : Option Int) (ft : Nat), 1 ≤ ft → ft ≤ 999 →
      ∀ d ∈ durationsFrom num den last ft ptss, 1 ≤ d ∧ d ≤ 999 := by
  intro ptss
  induction ptss with
  | nil => intro last ft _ _ d hd; simp [durationsFrom] at hd
  | cons pts rest ih =>
      intro last ft h1 h2 d hd
      simp only [durationsFrom, List.mem_cons] at hd
      have hr := durationStep_range last ft pts num den h1 h2
      rcases hd with rfl | hd
      · exact hr
      · exact ih (some pts) _ hr.1 hr.2 d hd

/-- C5 counterexample: with time base 1/1000 and PTS trace `[0, 40, 40]`
the code produces durations `[33, 40, 40]`: the third frame's PTS delta is
0 ms — outside `[1, 999]` — yet its duration is 40, not the 33 the claim
requires (`frame_time_ms` retains its previous value instead of returning
to the default; video_hw.rs 739-741 only overwrites it in range). -/
theorem c5_duration_counterexample :
    durationsFrom 1 1000 none 33 [0, 40, 40] = [33, 40, 40] ∧
    specDurationC5 (some 40) 40 1 1000 = 33 ∧ (40 : Nat) ≠ 33 := by decide

/-- C5 (amended): the duration equals 33 while no prior PTS has produced an
in-range delta; a PTS delta outside `[1, 999]` leaves the duration at its
previous value (rather than resetting it to 33); consequently every frame's
duration lies in `[1, 999]`. -/
theorem c5_duration_amended (num den : Int) :
    (∀ (last : Int) (ft : Nat) (pts : Int),
        ¬(0 < ptsDeltaMs (pts - last) num den ∧
            ptsDeltaMs (pts - last) num den < 1000) →
        durationStep (some last) ft pts num den = ft) ∧
    (∀ (ptss : List Int) (d : Nat), d ∈ durationsFrom num den none 33 ptss →
        1 ≤ d ∧ d ≤ 999) := by
  constructor
  · intro last ft pts h
    simp only [durationStep]
    rw [if_neg h]
  · intro ptss d hd
    exact durationsFrom_range num den ptss none 33 (by decide) (by decide) d hd

/-- C5 witness: the amended theorem applied at time base 1/1000, an
out-of-range delta (0 ms) with previous value 40, and the trace `[0, 40]`. -/
theorem c5_duration_amended_witness :
    durationStep (some 40) 40 40 1 1000 = 40 ∧ (1 ≤ 40 ∧ 40 ≤ 999) :=
  ⟨(c5_duration_amended 1 1000).1 40 40 40 (by decide),
   (c5_duration_amended 1 1000).2 [0, 40] 40 (by decide)⟩

/-- C4 counterexample: the end-of-stream branch (video_hw.rs 614-621) resets
`frame_count` to 0, clears `last_pts`, returns `frame_time_ms` to 33 and
seeks to 0 — and nothing is incremented: the reset is idempotent on the
loop state, so no function of the decoder state can serve as a playback
epoch counter that grows by one at each loop reset, contradicting the
claimed epoch increment. -/
theorem c4_no_epoch_counterexample :
    eofResetState ⟨250, 9, some 12345, 40, 7, true⟩ = ⟨0, 9, none, 33, 0, true⟩ ∧
    ¬∃ epoch : DecodeState → Nat, ∀ s, epoch (eofResetState s) = epoch s + 1 := by
  refine ⟨rfl, ?_⟩
  rintro ⟨e, he⟩
  have h1 := he (eofResetState ⟨250, 9, some 12345, 40, 7, true⟩)
  have h2 : eofResetState (eofResetState ⟨250, 9, some 12345, 40, 7, true⟩) =
      eofResetState ⟨250, 9, some 12345, 40, 7, true⟩ := rfl
  rw [h2] at h1
  omega

/-- C4 (amended): when the demuxer is exhausted and neither the stop nor the
pause branch applies, the decode loop seeks to position 0, resets the frame
counter to zero, clears the last-PTS value, returns the inter-frame duration
to the 33 ms default, and continues decoding rather than exiting; there is
no epoch counter to increment. -/
theorem c4_eof_reset_amended (cfg : DecodeCfg) (chOpen : Bool) (s : DecodeState) :
    decodeIter cfg false false .eof chOpen s =
      .cont { s with
        frame_count := 0
        last_pts := none
        frame_time_ms := 33
        position := 0 } := by
  simp [decodeIter, decodeIterBody, eofResetState]

/-- Helper: the post-guard body of a decode iteration never exits through
the stop branch. -/
theorem decodeIterBody_ne_stop (cfg : DecodeCfg) (read : PacketRead)
    (chOpen : Bool) (s : DecodeState) :
    decodeIterBody cfg read chOpen s ≠ .stop := by
  unfold decodeIterBody
  repeat' split
  all_goals simp

/-- Helper: the post-guard body of a decode iteration never enters the pause
branch. -/
theorem decodeIterBody_ne_pauseSleep (cfg : DecodeCfg) (read : PacketRead)
    (chOpen : Bool) (s t : DecodeState) :
    decodeIterBody cfg read chOpen s ≠ .pauseSleep t := by
  unfold decodeIterBody
  repeat' split
  all_goals simp

/-- C8 counterexample: with the stop flag already set but `frame_count = 1`,
the iteration does not read the stop flag at all (the guard at
video_hw.rs 601 is `frame_count % 100 == 0 && *is_stopped...`): it decodes
and sends a further frame, contradicting both "the cancel flag is checked at
the top of every frame iteration" and "once cancel is set the Decoder exits
without decoding further frames beyond the current one". -/
theorem c8_flag_cadence_counterexample :
    decodeIter ⟨1, 1000, 1, 1⟩ true false
        (.pkt true true (.frame ⟨some 0, [1, 2, 3, 4], 4, true⟩)) true
        ⟨1, 0, none, 33, 1, false⟩ =
      .sendAndCont ⟨2, 1, some 0, 33, 1, true⟩ ⟨[1, 2, 3, 4], 1, 1, 33⟩ := by
  decide

/-- C8 (amended): the stop flag is read only on iterations whose
`frame_count` is a multiple of 100, and the pause flag only on multiples of
10; consequently, once the stop flag is set the decoder exits at the next
multiple-of-100 frame count (up to 100 further frames), not immediately. -/
theorem c8_flag_cadence_amended (cfg : DecodeCfg) (read : PacketRead)
    (chOpen : Bool) (s : DecodeState) :
    (decodeIter cfg true false read chOpen s = .stop ↔
      s.frame_count % 100 = 0) ∧
    (decodeIter cfg false true read chOpen s = .pauseSleep s ↔
      s.frame_count % 10 = 0) := by
  constructor
  · constructor
    · intro h
      by_contra hc
      unfold decodeIter at h
      rw [if_neg (by simp [hc])] at h
      rw [if_neg (by simp)] at h
      exact decodeIterBody_ne_stop cfg read chOpen s h
    · intro hc
      unfold decodeIter
      rw [if_pos ⟨hc, rfl⟩]
  · constructor
    · intro h
      by_contra hc
      unfold decodeIter at h
      rw [if_neg (by simp)] at h
      rw [if_neg (by simp [hc])] at h
      exact decodeIterBody_ne_pauseSleep cfg read chOpen s s h
    · intro hc
      unfold decodeIter
      rw [if_neg (by simp), if_pos ⟨hc, rfl⟩]

/-- C8 witness: the amended theorem applied at a state whose frame count is
a multiple of 100 (the stop check fires) and at the state of the
counterexample (frame count 1, no check). -/
theorem c8_flag_cadence_amended_witness :
    decodeIter ⟨1, 1000, 1, 1⟩ true false .eof true ⟨100, 0, none, 33, 1, false⟩ =
      .stop ∧
    decodeIter ⟨1, 1000, 1, 1⟩ true false .eof true ⟨1, 0, none, 33, 1, false⟩ ≠
      .stop :=
  ⟨(c8_flag_cadence_amended ⟨1, 1000, 1, 1⟩ .eof true
      ⟨100, 0, none, 33, 1, false⟩).1.mpr (by decide),
   fun h => by
    have := (c8_flag_cadence_amended ⟨1, 1000, 1, 1⟩ .eof true
      ⟨1, 0, none, 33, 1, false⟩).1.mp h
    simp at this⟩

/-- C2 counterexample: with every other open step succeeding, a VAAPI
device-context creation failure makes the open phase of
`decode_video_async` return `Err` (propagated by the `?` at
video_hw.rs 575): the pipeline terminates instead of falling back to
software decoding. -/
theorem c2_hw_fallback_counterexample :
    decodeVideoOpen true true true true true .VAAPI false true =
      .error "Failed to create hardware device context" ∧
    exceptIsOk (decodeVideoOpen true true true true true .VAAPI false true) =
      false := by
  exact ⟨rfl, rfl⟩

/-- C2 (amended): if hardware device-context creation fails at Decoder open
(requested backend not `None`, device unavailable), `decode_video_async`
returns the error and the decode task terminates (its error is logged by the
spawning task); there is no fallback to software decoding. -/
theorem c2_hw_init_failure_amended (hwType : HardwareAcceleration)
    (bufferRefOk : Bool) (hne : hwType ≠ .None) :
    decodeVideoOpen true true true true true hwType false bufferRefOk =
      .error "Failed to create hardware device context" := by
  cases hwType <;> simp_all [decodeVideoOpen, HardwareDecoder.new]

/-- C2 witness: the amended theorem at the VAAPI backend. -/
theorem c2_hw_init_failure_amended_witness :
    decodeVideoOpen true true true true true .VAAPI false true =
      .error "Failed to create hardware device context" :=
  c2_hw_init_failure_amended .VAAPI true (by decide)

/-- First `render_frame` call on a fresh configured presenter with an
output-sized frame. -/
def firstRender : RenderOut := render_frame appDefault [] 1920 1080

/-- Second `render_frame` call, continuing from the first. -/
def secondRender : RenderOut := render_frame firstRender.app [] 1920 1080

/-- The pool offsets of the buffers created by a list of effects. -/
def createdOffsets (es : List Effect) : List Nat :=
  es.filterMap fun e =>
    match e with
    | .createBuffer off _ _ _ => some off
    | _ => none

/-- C1 counterexample: two consecutive frames rendered through
`render_frame` (wayland.rs 197-229) both create their buffer at pool offset
0, and the second frame destroys the first frame's buffer (no release event
is ever consulted; the `wl_buffer` dispatch handler at wayland.rs 494-504 is
empty).  Under the claim the second frame's offset would be
`(1 % k) * stride * height = 8294400 ≠ 0` for any buffer count `k ∈ {2, 3}`. -/
theorem c1_buffer_offset_counterexample :
    createdOffsets (firstRender.effects ++ secondRender.effects) = [0, 0] ∧
    Effect.destroyBuffer ∈ secondRender.effects ∧
    (1 % 2) * (7680 * 1080) ≠ 0 ∧ (1 % 3) * (7680 * 1080) ≠ 0 := by
  decide

/-- An effect whose buffer-offset argument (if it has one) is zero: a
`createBuffer` or `attach` at pool offset 0; any other effect trivially. -/
def offsetZero : Effect → Prop
  | .createBuffer off _ _ _ => off = 0
  | .attach off => off = 0
  | _ => True

/-- C1 (amended): every buffer `render_frame` creates, and every buffer it
attaches and commits, slices the SHM pool at byte offset 0 — for every
presenter state and every frame.  There is no rotation array: the app owns
at most one buffer, destroys it each frame and recreates it, ignoring
compositor release events. -/
theorem c1_buffer_offset_amended (app : WaylandApp) (d : List Nat) (w h : Nat) :
    ∀ e ∈ (render_frame app d w h).effects, offsetZero e := by
  by_cases hc : app.configured
  case neg => simp [render_frame, hc]
  rcases hsurf : app.surface with _ | u
  · simp [render_frame, hc, hsurf]
  rcases hpool : app.shm_pool with _ | u1
  · simp [render_frame, hc, hsurf, hpool]
  rcases hfile : app.shm_file with _ | u2
  · simp only [render_frame, hc, hsurf, hpool, hfile]
    repeat' split
    all_goals simp [offsetZero]
  rcases hqueue : app.queue with _ | u3
  · simp only [render_frame, hc, hsurf, hpool, hfile, hqueue]
    repeat' split
    all_goals simp [offsetZero]
  rcases hbuf : app.buffer with _ | u4
  all_goals
    simp only [render_frame, hc, hsurf, hpool, hfile, hqueue, hbuf,
      Bool.not_true, Bool.false_eq_true, if_false, List.forall_mem_append]
  all_goals repeat' split
  all_goals simp [offsetZero, List.forall_mem_append]

/-- C1 witness: the amended theorem applied to the first concrete render,
whose effect list contains the `createBuffer` effect at offset 0. -/
theorem c1_buffer_offset_amended_witness :
    offsetZero (Effect.createBuffer 0 1920 1080 7680) :=
  c1_buffer_offset_amended appDefault [] 1920 1080
    (Effect.createBuffer 0 1920 1080 7680) (by decide)

/-- C9 counterexample: the layer-surface `Closed` handler
(wayland.rs 585-587) calls `std::process::exit(0)`: the process terminates
immediately, so the pipeline does not transition to a Stopped state with the
process still running, and no subsequent start can happen. -/
theorem c9_closed_counterexample :
    (layerSurfaceDispatch appDefault .Closed).2 = [Effect.exitProcess 0] ∧
    Effect.exitProcess 0 ∈ (layerSurfaceDispatch appDefault .Closed).2 := by
  exact ⟨rfl, by decide⟩

/-- C9 (amended): when the layer surface receives the compositor's `closed`
event, the dispatch handler leaves the application state untouched and exits
the whole process with status 0; no stop transition is triggered and no
subsequent start occurs. -/
theorem c9_closed_amended (app : WaylandApp) :
    layerSurfaceDispatch app .Closed = (app, [Effect.exitProcess 0]) := rfl

/-- The 4K-output presenter used by the oversized-frame scenario: output
mode 4096x2160 while the pool remains sized for 3840x2160. -/
def appWide : WaylandApp :=
  { appDefault with output_width := 4096, output_height := 2160 }

/-- Render-loop state for the oversized-frame scenario. -/
def renderState3 : RenderState :=
  { app := appWide, frame_count := 0, first_frame_time := some 0
    next_frame_time := 0, last_frame_time := none }

/-- A 4096x2160 frame (bytes irrelevant to the size check). -/
def frameBig : FrameData := { frame := [], width := 4096, height := 2160, frame_time := 40 }

/-- A 1920x1080 frame (the decoder's fixed output size) with a 40 ms
duration; against a larger output it takes the dimensions-changed path. -/
def frame40 : FrameData := { frame := [], width := 1920, height := 1080, frame_time := 40 }

/-- Helper: with all proxies present, whenever the render dimensions — the
frame's own when they match the output, the output's after CPU-scaling when
they differ — give a computed size exceeding the pool, `render_frame`
returns the frame-too-large error before writing, creating or committing
anything (the only possible prior effect is the first-frame scaling info
log). -/
theorem render_frame_oversized (app : WaylandApp) (d : List Nat) (w h : Nat)
    (hc : app.configured = true) (hsurf : app.surface = some ())
    (hpool : app.shm_pool = some ()) (hfile : app.shm_file = some ())
    (hqueue : app.queue = some ())
    (hbig : app.pool_size < toI32 (w32 (w32
      ((renderScaled app d w h).2.1 * 4) * (renderScaled app d w h).2.2))) :
    render_frame app d w h =
      ⟨app,
        if (w ≠ app.output_width ∨ h ≠ app.output_height) ∧ app.frame_count = 0
        then [.log .info "Scaling video to output"] else [],
        .error "Frame size exceeds pool size"⟩ := by
  simp [render_frame, hc, hsurf, hpool, hfile, hqueue, hbig]

/-- C3 counterexample: a 4096x2160 frame against a pool sized for 3840x2160
(the oversized-frame scenario of the spec) produces no warn-level log at
all: `render_frame` returns `Err` (wayland.rs 187-189) and the render loop
logs it with `log::error!` (video_hw.rs 870); the frame is dropped without a
commit, but the claimed warn-level log does not happen. -/
theorem c3_frame_too_large_counterexample :
    ((renderLoopIter renderState3 (some frameBig) 10).2.any
        (Effect.isLogAt .warn) = false) ∧
    ((renderLoopIter renderState3 (some frameBig) 10).2.any
        (Effect.isLogAt .error) = true) ∧
    ((renderLoopIter renderState3 (some frameBig) 10).2.any
        Effect.isCommit = false) := by
  decide

/-- C3 (amended): when a frame's computed byte size — taken at the render
dimensions, i.e. after the CPU scaling applied when the frame's dimensions
differ from the output — exceeds the SHM pool size, the Presenter drops the
frame without committing it, logs at error level (not warn), and the render
loop continues to the next frame.  This covers both the frame-at-output-size
path and the dimensions-changed path of wayland.rs 170-189. -/
theorem c3_frame_too_large_amended (s : RenderState) (fd : FrameData) (now : Nat)
    (hc : s.app.configured = true) (hsurf : s.app.surface = some ())
    (hpool : s.app.shm_pool = some ()) (hfile : s.app.shm_file = some ())
    (hqueue : s.app.queue = some ())
    (hbig : s.app.pool_size < toI32 (w32 (w32
      ((renderScaled s.app fd.frame fd.width fd.height).2.1 * 4) *
      (renderScaled s.app fd.frame fd.width fd.height).2.2))) :
    (renderLoopIter s (some fd) now).1.isSome = true ∧
    Effect.log .error "Failed to render frame" ∈
      (renderLoopIter s (some fd) now).2 ∧
    Effect.commit ∉ (renderLoopIter s (some fd) now).2 := by
  have hr := render_frame_oversized s.app fd.frame fd.width fd.height hc hsurf
    hpool hfile hqueue hbig
  refine ⟨rfl, ?_, ?_⟩
  · simp [renderLoopIter, renderLoopBody, hr]
  · simp only [renderLoopIter, renderLoopBody, hr]
    simp only [List.mem_append, List.mem_cons, List.mem_singleton, not_or]
    repeat' split
    all_goals simp

/-- C3 witness: the amended theorem on both oversize triggers against the
4096x2160-output presenter with the 3840x2160-sized pool: the realistic
dimensions-changed path (the decoder's 1920x1080 frame, CPU-scaled up to
the 4096x2160 output before the size check) and the frame already at output
size. -/
theorem c3_frame_too_large_amended_witness :
    (Effect.log .error "Failed to render frame" ∈
        (renderLoopIter renderState3 (some frame40) 10).2 ∧
      Effect.commit ∉ (renderLoopIter renderState3 (some frame40) 10).2) ∧
    (Effect.log .error "Failed to render frame" ∈
        (renderLoopIter renderState3 (some frameBig) 10).2 ∧
      Effect.commit ∉ (renderLoopIter renderState3 (some frameBig) 10).2) :=
  ⟨⟨(c3_frame_too_large_amended renderState3 frame40 10 rfl rfl rfl rfl rfl
        (by decide)).2.1,
    (c3_frame_too_large_amended renderState3 frame40 10 rfl rfl rfl rfl rfl
        (by decide)).2.2⟩,
   ⟨(c3_frame_too_large_amended renderState3 frameBig 10 rfl rfl rfl rfl rfl
        (by decide)).2.1,
    (c3_frame_too_large_amended renderState3 frameBig 10 rfl rfl rfl rfl rfl
        (by decide)).2.2⟩⟩

/-- Render-loop state before the very first frame: frame count 0, no first
frame seen, pacing clock at the loop start time 1000. -/
def renderState7 : RenderState :=
  { app := appDefault, frame_count := 0, first_frame_time := none
    next_frame_time := 1000, last_frame_time := none }

/-- A mid-epoch render-loop state: 150 frames since the last reset. -/
def renderState7b : RenderState :=
  { app := appDefault, frame_count := 150, first_frame_time := some 0
    next_frame_time := 1000, last_frame_time := none }

/-- An output-sized frame with the default 33 ms duration. -/
def frame33 : FrameData := { frame := [], width := 1920, height := 1080, frame_time := 33 }

/-- C7 counterexample: the very first received frame (duration 40 ms, count
1) meets neither loop-detection condition, yet the pacing clock is reset to
the current wall time by the first-frame branch (video_hw.rs 858-863): the
new `next_frame_time` is `now + 40 = 5040`, not the un-reset
`1000 + 40 = 1040` the claim requires. -/
theorem c7_loop_detection_counterexample :
    ¬(frame40.frame_time = 33 ∧ renderState7.frame_count + 1 > 100) ∧
    (renderLoopBody renderState7 frame40 5000).1.next_frame_time = 5040 ∧
    renderState7.next_frame_time + frame40.frame_time = 1040 ∧
    (5040 : Nat) ≠ 1040 := by
  decide

/-- C7 (amended): after the first frame (the first-frame branch initialises
the pacing clock to wall time), a received frame with duration 33 and a
presenter-side count exceeding 100 resets the count to zero, sets the pacing
clock to the current wall time (then advances it by the 33 ms duration), and
logs the transition; a frame not meeting both conditions leaves the count
incrementing and the pacing clock advancing normally. -/
theorem c7_loop_detection_amended (s : RenderState) (fd : FrameData) (now : Nat)
    (hfirst : s.first_frame_time.isSome = true) :
    ((fd.frame_time = 33 ∧ s.frame_count + 1 > 100) →
      (renderLoopBody s fd now).1.frame_count = 0 ∧
      (renderLoopBody s fd now).1.next_frame_time = now + 33 ∧
      Effect.log .info "Loop detected, resetting frame count and timing" ∈
        (renderLoopBody s fd now).2) ∧
    (¬(fd.frame_time = 33 ∧ s.frame_count + 1 > 100) →
      (renderLoopBody s fd now).1.frame_count = s.frame_count + 1 ∧
      (renderLoopBody s fd now).1.next_frame_time =
        s.next_frame_time + fd.frame_time) := by
  obtain ⟨t, ht⟩ := Option.isSome_iff_exists.mp hfirst
  constructor
  · intro hcond
    simp [renderLoopBody, hcond.1, hcond.2]
  · intro hncond
    simp only [renderLoopBody, if_neg hncond, ht]
    simp [ht]

/-- C7 witness: the amended theorem at a mid-epoch state (count 150) and a
33 ms frame arriving at wall time 777. -/
theorem c7_loop_detection_amended_witness :
    (renderLoopBody renderState7b frame33 777).1.frame_count = 0 ∧
    (renderLoopBody renderState7b frame33 777).1.next_frame_time = 777 + 33 ∧
    Effect.log .info "Loop detected, resetting frame count and timing" ∈
      (renderLoopBody renderState7b frame33 777).2 :=
  (c7_loop_detection_amended renderState7b frame33 777 rfl).1 (by decide)

/-- C10 (code bug): with a 3840x2160 video frame on a 1920x1080 output in
`ScaleMode::No`, `scale_no` is not total: the copy loop does run (the copy
window `min(video, output)` is non-empty), and already the first pixel's
destination byte index — computed with the wrapping `u32` subtractions of
wayland.rs 406-407 — is far beyond the `1920 * 1080 * 4 = 8294400`-byte
output buffer: a release build writes out of bounds through the raw
pointer, and a debug build panics at the `output_width - video_width`
subtraction. -/
theorem c10_scale_no_out_of_bounds :
    w32 (w32 (1920 * 1080) * 4) = 1920 * 1080 * 4 ∧
    0 < min 3840 1920 ∧ 0 < min 2160 1080 ∧
    1920 * 1080 * 4 ≤ scaleNoDstIdx 1920 1080 3840 2160 0 0 := by
  decide

end Waypaper
